import Mathlib

/-!
Shallow embedding of `src/rosetta_finder/rosetta.py` (module `rosetta_finder.rosetta`):
the option model (`RosettaScriptsVariable`, `RosettaScriptsVariableGroup`), the node
allocation (`MPI_node`), the command composer / job dispatcher (`Rosetta`) and the
result aggregator (`RosettaEnergyUnitAnalyser`).

Modelling conventions:
* Python `Dict[str, str]` values are association lists in insertion order.
* The filesystem is passed explicitly: `isfile : String → Bool` answers
  `os.path.isfile`, and a `List String` tracks the set of files (or directories)
  that exist / have been created; `open(...).write` and `os.makedirs` append to it,
  `os.remove` erases from it.
* Exceptions are `Except String`; the message is the Python exception rendered as
  text (for example `RuntimeError` from `Rosetta.execute` keeps its exact f-string).
* External subprocesses are an oracle `proc : List String → ProcResult` giving the
  return code and combined captured output of a launched command.
-/

/-- Modelled from the spec: the Binary Descriptor produced by the external binary
resolver (`rosetta_finder.rosetta_finder.RosettaBinary`, not part of the analysed
sources). The core only consumes the resolved full path and the execution mode tag
(`"mpi"` or `"static"`). -/
structure RosettaBinary where
  full_path : String
  mode : String
deriving DecidableEq, Repr

/-- Embedding of `RosettaScriptsVariable`: one `k`/`v` pair of a templated group. -/
structure RosettaScriptsVariable where
  k : String
  v : String
deriving DecidableEq, Repr

/-- Embedding of `RosettaScriptsVariable.aslist`:
`["-parser:script_vars", f"{self.k}={self.v}"]`. -/
def RosettaScriptsVariable.aslist (self : RosettaScriptsVariable) : List String :=
  ["-parser:script_vars", self.k ++ "=" ++ self.v]

/-- Embedding of `RosettaScriptsVariableGroup`. -/
structure RosettaScriptsVariableGroup where
  «variables» : List RosettaScriptsVariable
deriving DecidableEq, Repr

/-- Embedding of the `empty` property: `len(self.variables) == 0`. -/
def RosettaScriptsVariableGroup.empty (self : RosettaScriptsVariableGroup) : Bool :=
  self.variables.length == 0

/-- Embedding of `aslonglist`: `[i for v in self.variables for i in v.aslist]`. -/
def RosettaScriptsVariableGroup.aslonglist (self : RosettaScriptsVariableGroup) :
    List String :=
  self.variables.flatMap RosettaScriptsVariable.aslist

/-- One step of building a Python dict: `d[k] = v` keeps the insertion position of
an existing key (updating its value) and appends a fresh key at the end. -/
def dictInsert (d : List (String × String)) (k v : String) : List (String × String) :=
  if d.any (fun p => p.1 == k) then
    d.map (fun p => if p.1 == k then (k, v) else p)
  else
    d ++ [(k, v)]

/-- Embedding of the `asdict` property: `{rsv.k: rsv.v for rsv in self.variables}`,
as an association list in Python dict iteration order. -/
def RosettaScriptsVariableGroup.asdict (self : RosettaScriptsVariableGroup) :
    List (String × String) :=
  self.variables.foldl (fun d rsv => dictInsert d rsv.k rsv.v) []

/-- Embedding of `RosettaScriptsVariableGroup.from_dict`: builds the group from the
pairs of `var_pair` and raises `ValueError()` when the resulting group is empty. -/
def RosettaScriptsVariableGroup.from_dict (var_pair : List (String × String)) :
    Except String RosettaScriptsVariableGroup :=
  let inst := RosettaScriptsVariableGroup.mk
    (var_pair.map (fun p => RosettaScriptsVariable.mk p.1 p.2))
  if inst.empty then Except.error "ValueError" else Except.ok inst

/-- Python tuple unpacking `k, v = s` of a string `s`: iterating a string yields its
characters, so unpacking succeeds exactly when `s` has two characters (each becomes
a one-character string) and raises `ValueError` otherwise. -/
def strUnpack2 (s : String) : Except String (String × String) :=
  match s.data with
  | [a, b] => Except.ok (String.mk [a], String.mk [b])
  | _ => Except.error "ValueError"

/-- Python `pat in s` for a non-empty pattern: `s.splitOn pat` has more than one
part exactly when `pat` occurs in `s`. -/
def strContains (s pat : String) : Bool :=
  (s.splitOn pat).length != 1

/-- Embedding of `RosettaScriptsVariableGroup.apply_to_xml_content`. The source
iterates `for k, v in self.asdict:` — iterating a dict yields its KEYS, so each key
string is tuple-unpacked into `(k, v)`; on success the marker `%%k%%` is either
replaced by `v` or, when absent, a `RosettaScriptVariableNotExistWarning` is
collected and the text is left unchanged. Returns the new text together with the
warnings raised. -/
def RosettaScriptsVariableGroup.apply_to_xml_content
    (self : RosettaScriptsVariableGroup) (xml_content : String) :
    Except String (String × List String) :=
  self.asdict.foldlM
    (fun st kv =>
      match strUnpack2 kv.1 with
      | Except.error e => Except.error e
      | Except.ok (k, v) =>
        let marker := "%%" ++ k ++ "%%"
        if strContains st.1 marker then
          Except.ok (st.1.replace marker v, st.2)
        else
          Except.ok (st.1, st.2 ++ ["Variable " ++ k ++ " not in Rosetta Script content."]))
    (xml_content, [])

/-- Embedding of `MPI_node` after dataclass construction: `nproc`, the optional
`node_matrix` (host → slot count, in insertion order), the class-level `node_file`
name, and the `mpi_excutable` found by `shutil.which` in `__post_init__`. -/
structure MPI_node where
  nproc : Int
  node_matrix : Option (List (String × Int))
  node_file : String
  mpi_excutable : String
deriving DecidableEq, Repr

/-- Python truthiness of the optional dict `node_matrix`: `None` and `{}` are falsy. -/
def dictTruthy (o : Option (List (String × Int))) : Bool :=
  match o with
  | none => false
  | some l => l.length != 0

/-- Embedding of the tail of `MPI_node.__post_init__` (after `shutil.which`): when
`node_matrix` is a dict, write one `"<host> slots=<n>"` line per entry to
`node_file` (the file appears on disk) and overwrite `nproc` with
`sum(self.node_matrix.values())`; otherwise return unchanged. -/
def MPI_node.post_init (self : MPI_node) (fs : List String) : MPI_node × List String :=
  match self.node_matrix with
  | none => (self, fs)
  | some m =>
      ({ self with nproc := (m.map (fun p => p.2)).sum }, fs ++ [self.node_file])

/-- Embedding of the `local` property:
`[self.mpi_excutable, "--use-hwthread-cpus", "-np", str(self.nproc)]`. -/
def MPI_node.local (self : MPI_node) : List String :=
  [self.mpi_excutable, "--use-hwthread-cpus", "-np", toString self.nproc]

/-- Embedding of the `host_file` property:
`[self.mpi_excutable, "--hostfile", self.node_file]`. -/
def MPI_node.host_file (self : MPI_node) : List String :=
  [self.mpi_excutable, "--hostfile", self.node_file]

/-- Embedding of the `MPI_node.apply` context manager used as
`with self.mpi_node.apply(cmd) as updated_cmd: body(updated_cmd)`.
The generator yields `m + cmd` (local prefix when `node_matrix` is falsy, host-file
prefix otherwise) and, after the yield, removes `node_file` if it exists.
`contextlib.contextmanager` runs the statements after the yield only when the
with-body completes normally; when the body raises, the exception is thrown into
the generator at the yield and, there being no `try/finally`, the removal is
skipped and the exception propagates. The result is the body's outcome together
with the file set after the with-statement. -/
def MPI_node.apply (self : MPI_node) (cmd : List String) (fs : List String)
    (body : List String → Except String Unit) : Except String Unit × List String :=
  let m := if dictTruthy self.node_matrix = false then self.local else self.host_file
  match body (m ++ cmd) with
  | Except.ok _ =>
      (Except.ok (), if fs.contains self.node_file then fs.erase self.node_file else fs)
  | Except.error e => (Except.error e, fs)

/-- Result of launching one external process: return code and combined captured
standard output/error (`stderr` is folded into `stdout` by `subprocess.STDOUT`). -/
structure ProcResult where
  retcode : Int
  output : String
deriving DecidableEq, Repr

/-- `Union[str, RosettaScriptsVariableGroup]`, the tagged option variant. -/
abbrev RosettaOpt := Sum String RosettaScriptsVariableGroup

/-- `Dict[str, Union[str, RosettaScriptsVariableGroup]]` as an association list in
insertion order. -/
abbrev InputDict := List (String × RosettaOpt)

/-- Embedding of the `Rosetta` dataclass fields. -/
structure Rosetta where
  bin : RosettaBinary
  nproc : Int
  flags : List String
  opts : List RosettaOpt
  use_mpi : Bool
  mpi_node : Option MPI_node
  job_id : String
  output_dir : String
  save_all_together : Bool
deriving Repr

/-- Embedding of `Rosetta.expand_input_dict`: flattens a dict whose values are
strings (emitting `[k, v]`) or variable groups (emitting `aslonglist`). -/
def Rosetta.expand_input_dict (d : InputDict) : List String :=
  d.flatMap (fun kv =>
    match kv.2 with
    | Sum.inl v => [kv.1, v]
    | Sum.inr g => g.aslonglist)

/-- Embedding of `Rosetta.__post_init__`, starting from the dataclass fields as
passed by the caller; `None` flag/option lists become empty lists. The
`isinstance(self.bin, str)` branch delegates to the external `RosettaFinder`
collaborator, so the embedding starts from an already resolved `RosettaBinary`.
When `mpi_node` is supplied, a non-`"mpi"` binary raises `ValueError`, otherwise
`use_mpi` is set to `True`; when `mpi_node` is absent, a `UserWarning` is emitted
and `use_mpi` is forced to `False`. Returns the constructed object together with
the warnings emitted. -/
def Rosetta.post_init (bin : RosettaBinary) (nproc : Int)
    (flags : Option (List String)) (opts : Option (List RosettaOpt))
    (use_mpi : Bool) (mpi_node : Option MPI_node)
    (job_id : String) (output_dir : String) (save_all_together : Bool) :
    Except String (Rosetta × List String) :=
  let flags' := flags.getD []
  let opts' := opts.getD []
  let _ := use_mpi
  match mpi_node with
  | some node =>
      if bin.mode != "mpi" then Except.error "MPI nodes are given yet not supported."
      else Except.ok
        (Rosetta.mk bin nproc flags' opts' true (some node) job_id output_dir
          save_all_together, [])
  | none =>
      Except.ok
        (Rosetta.mk bin nproc flags' opts' false none job_id output_dir
          save_all_together, ["Using MPI binary as static build."])

/-- Embedding of the static method `Rosetta.execute`: launch `cmd` through the
`proc` oracle; a non-zero return code raises
`RuntimeError(f"Command failed with return code {retcode}")` — the captured output
is printed to the console, not attached to the exception. -/
def Rosetta.execute (proc : List String → ProcResult) (cmd : List String) :
    Except String Unit :=
  if (proc cmd).retcode != 0 then
    Except.error ("Command failed with return code " ++ toString (proc cmd).retcode)
  else Except.ok ()

/-- Models `joblib.Parallel(n_jobs=...)(delayed(f)(job) for job in jobs)` with
default settings: results are gathered in task order, and an exception raised by
any task is re-raised in the calling context rather than collected, so no partial
result list is returned. -/
def joblibParallel (f : List String → Except String Unit) :
    List (List String) → Except String (List Unit)
  | [] => Except.ok []
  | j :: js =>
    match f j with
    | Except.error e => Except.error e
    | Except.ok u =>
      match joblibParallel f js with
      | Except.error e => Except.error e
      | Except.ok us => Except.ok (u :: us)

/-- Python `f"_{i:05}"` for the positive task indices used by `run_local`:
zero-pad the decimal rendering to width 5. -/
def pad5 (i : Int) : String :=
  let s := toString i
  String.mk (List.replicate (5 - s.length) '0') ++ s

/-- The job list built by `Rosetta.run_local` before dispatch. With a positive
`nstruct` (Python truthiness: `nstruct and nstruct > 0`), the base command is first
extended with every input dict flattened, then one job per `i in 1..nstruct` adds
`-suffix _{i:05} -no_nstruct_label -out:file:scorefile {job_id}.score.{i:05}.sc`;
otherwise with a truthy (non-empty) `inputs` one job per input dict; otherwise the
single base command. -/
def Rosetta.cmd_jobs (self : Rosetta) (cmd : List String)
    (inputs : Option (List InputDict)) (nstruct : Option Int) : List (List String) :=
  if (match nstruct with | some n => decide (n > 0) | none => false) = true then
    let base := cmd ++ (match inputs with
      | some ins => ins.flatMap Rosetta.expand_input_dict
      | none => [])
    ((List.range (match nstruct with | some n => n.toNat | none => 0)).map
        (fun j => (j : Int) + 1)).map
      (fun i => base ++ ["-suffix", "_" ++ pad5 i, "-no_nstruct_label",
        "-out:file:scorefile", self.job_id ++ ".score." ++ pad5 i ++ ".sc"])
  else if (match inputs with | some ins => ins.length != 0 | none => false) = true then
    (inputs.getD []).map (fun input_arg => cmd ++ Rosetta.expand_input_dict input_arg)
  else
    [cmd]

/-- Embedding of `Rosetta.run_local`: builds the job list and dispatches it through
`joblib.Parallel`; each job runs `Rosetta.execute`, whose `None` result is `()`. -/
def Rosetta.run_local (self : Rosetta) (proc : List String → ProcResult)
    (cmd : List String) (inputs : Option (List InputDict)) (nstruct : Option Int) :
    Except String (List Unit) :=
  joblibParallel (Rosetta.execute proc) (self.cmd_jobs cmd inputs nstruct)

/-- Embedding of `Rosetta.run_mpi`: flattens truthy `inputs` onto the single
command, appends `-nstruct n` for truthy `nstruct`, and performs exactly one
launch inside the `MPI_node.apply` context manager. The assertion on a missing
MPI node raises. Returns the `[ret]` result list (or the propagated exception)
together with the file set after the with-statement. -/
def Rosetta.run_mpi (self : Rosetta) (proc : List String → ProcResult)
    (cmd : List String) (inputs : Option (List InputDict)) (nstruct : Option Int)
    (fs : List String) : Except String (List Unit) × List String :=
  match self.mpi_node with
  | none => (Except.error "AssertionError: MPI node instance is not initialized.", fs)
  | some node =>
    let cmd1 := cmd ++ (match inputs with
      | some ins => if ins.length != 0 then ins.flatMap Rosetta.expand_input_dict else []
      | none => [])
    let cmd2 := cmd1 ++ (match nstruct with
      | some n => if n != 0 then ["-nstruct", toString n] else []
      | none => [])
    match node.apply cmd2 fs (Rosetta.execute proc) with
    | (Except.ok _, fs2) => (Except.ok [()], fs2)
    | (Except.error e, fs2) => (Except.error e, fs2)

/-- `os.makedirs(p, exist_ok=True)` on the explicit directory set. -/
def makedirs (dirs : List String) (p : String) : List String :=
  if dirs.contains p then dirs else dirs ++ [p]

/-- Embedding of the `output_pdb_dir` property: raises `ValueError` when
`output_dir` is unset, otherwise creates and returns
`os.path.join(output_dir, job_id, "pdb" | "all")`. -/
def Rosetta.output_pdb_dir (self : Rosetta) (dirs : List String) :
    Except String (String × List String) :=
  if self.output_dir == "" then Except.error "Output directory not set."
  else
    let p := self.output_dir ++ "/" ++ self.job_id ++ "/" ++
      (if self.save_all_together then "all" else "pdb")
    Except.ok (p, makedirs dirs p)

/-- Embedding of the `output_scorefile_dir` property: raises `ValueError` when
`output_dir` is unset, otherwise creates and returns
`os.path.join(output_dir, job_id, "scorefile" | "all")`. -/
def Rosetta.output_scorefile_dir (self : Rosetta) (dirs : List String) :
    Except String (String × List String) :=
  if self.output_dir == "" then Except.error "Output directory not set."
  else
    let p := self.output_dir ++ "/" ++ self.job_id ++ "/" ++
      (if self.save_all_together then "all" else "scorefile")
    Except.ok (p, makedirs dirs p)

/-- The string options of `opts`, in order:
`[opt for opt in self.opts if isinstance(opt, str)]`. -/
def strOpts (opts : List RosettaOpt) : List String :=
  opts.filterMap (fun o => match o with | Sum.inl s => some s | Sum.inr _ => none)

/-- The variable-group options of `opts`, in order:
`[opt for opt in self.opts if isinstance(opt, RosettaScriptsVariableGroup)]`. -/
def groupOpts (opts : List RosettaOpt) : List RosettaScriptsVariableGroup :=
  opts.filterMap (fun o => match o with | Sum.inl _ => none | Sum.inr g => some g)

/-- The `cmd` accumulation at the head of `Rosetta.compose`: the binary's full
path, then `@flag` for every flag file that exists (`os.path.isfile`), then every
string option in order, then the `aslonglist` expansion of every variable group in
order. -/
def composeBase (self : Rosetta) (isfile : String → Bool) : List String :=
  [self.bin.full_path]
  ++ (self.flags.filter isfile).map (fun flag => "@" ++ flag)
  ++ strOpts self.opts
  ++ (groupOpts self.opts).flatMap RosettaScriptsVariableGroup.aslonglist

/-- Embedding of `Rosetta.compose`: the `composeBase` tokens and, when an output
directory is configured, the two derived output-path options (whose directories
are created on demand). Returns the token list, the (unchanged) object, and the
directory set after the call. -/
def Rosetta.compose (self : Rosetta) (isfile : String → Bool) (dirs : List String) :
    Except String (List String × Rosetta × List String) :=
  let cmd := composeBase self isfile
  if self.output_dir == "" then Except.ok (cmd, self, dirs)
  else
    match self.output_pdb_dir dirs with
    | Except.error e => Except.error e
    | Except.ok (p1, dirs1) =>
      match self.output_scorefile_dir dirs1 with
      | Except.error e => Except.error e
      | Except.ok (p2, dirs2) =>
          Except.ok (cmd ++ ["-out:path:pdb", p1, "-out:path:score", p2], self, dirs2)

/-- A parsed score table as produced by `pandas.read_fwf`: named columns and rows
of cell texts. Row content is opaque to the claims settled here; the analyser's
construction logic only inspects `columns`. -/
structure DataFrame where
  columns : List String
  rows : List (List String)
deriving DecidableEq, Repr

/-- `df.drop(c, axis=1)`: remove the named column (and the cell at its index in
every row) when present. -/
def DataFrame.dropColumn (df : DataFrame) (c : String) : DataFrame :=
  match df.columns.findIdx? (fun x => x == c) with
  | none => df
  | some i => DataFrame.mk (df.columns.eraseIdx i) (df.rows.map (fun row => row.eraseIdx i))

/-- `pd.concat(dfs, axis=0, ignore_index=True)`: the column set is the union of the
inputs' columns in order of first appearance; rows are stacked (cell alignment for
mismatched schemas is abstracted — the analyser only inspects `columns`). -/
def pdConcat (dfs : List DataFrame) : DataFrame :=
  DataFrame.mk
    (dfs.foldl (fun acc df => acc ++ df.columns.filter (fun c => !acc.contains c)) [])
    (dfs.flatMap (fun df => df.rows))

/-- Embedding of the static method `RosettaEnergyUnitAnalyser.scorefile2df`:
`pd.read_fwf(score_file, skiprows=1)` is the external parser oracle `read_fwf`;
a `"SCORE:"` column, when present, is dropped. -/
def RosettaEnergyUnitAnalyser.scorefile2df (read_fwf : String → DataFrame)
    (score_file : String) : DataFrame :=
  let df := read_fwf score_file
  if df.columns.contains "SCORE:" then df.dropColumn "SCORE:" else df

/-- The first half of `RosettaEnergyUnitAnalyser.__post_init__`: parse `score_file`
when it is a file; when it is a directory, parse and concatenate every `*.sc`
entry; otherwise raise `FileNotFoundError`. Produces the dataframe the analyser
keeps as `self.df`. -/
def RosettaEnergyUnitAnalyser.load_df (isfile isdir : String → Bool)
    (listdir : String → List String) (read_fwf : String → DataFrame)
    (score_file : String) : Except String DataFrame :=
  if isfile score_file then
    Except.ok (RosettaEnergyUnitAnalyser.scorefile2df read_fwf score_file)
  else if isdir score_file then
    Except.ok (pdConcat
      (((listdir score_file).filter (fun f => f.endsWith ".sc")).map
        (fun f => RosettaEnergyUnitAnalyser.scorefile2df read_fwf
          (score_file ++ "/" ++ f))))
  else Except.error ("Score file " ++ score_file ++ " not found.")

/-- Embedding of `RosettaEnergyUnitAnalyser.__post_init__`: load `self.df` (see
`load_df`) and then raise `ValueError` when the configured `score_term` is not
among the parsed columns
(`if not self.score_term in self.df.columns: raise ValueError(...)`). -/
def RosettaEnergyUnitAnalyser.post_init (isfile isdir : String → Bool)
    (listdir : String → List String) (read_fwf : String → DataFrame)
    (score_file : String) (score_term : String) : Except String DataFrame :=
  match RosettaEnergyUnitAnalyser.load_df isfile isdir listdir read_fwf score_file with
  | Except.error e => Except.error e
  | Except.ok df =>
      if df.columns.contains score_term then Except.ok df
      else Except.error ("Score term " ++ score_term ++ " not found in score file.")

/-- The score-term selection line of `RosettaEnergyUnitAnalyser.top`:
`score_term if score_term is not None and score_term in self.df.columns else
self.score_term` — the per-call field falls back to the configured default when
absent from the columns. -/
def RosettaEnergyUnitAnalyser.top_score_term (df : DataFrame)
    (self_score_term : String) (score_term : Option String) : String :=
  match score_term with
  | some t => if df.columns.contains t then t else self_score_term
  | none => self_score_term

/-- C1: the claim says the scoped host-file release step runs exactly once
regardless of whether the wrapped execution succeeds, fails, or raises. The code
violates this: for the cluster allocation `{"node1": 2}` (whose `__post_init__`
writes `nodefile_1.txt`), a raising body leaves the host file on disk, because the
`MPI_node.apply` generator has no `try/finally` around its yield; the removal runs
only on the normal-completion path (third conjunct). -/
theorem mpi_apply_release_skipped_when_body_raises :
    (((MPI_node.mk 0 (some [("node1", 2)]) "nodefile_1.txt" "/usr/bin/mpirun").post_init
        []).2).contains "nodefile_1.txt" = true
    ∧ ((((MPI_node.mk 0 (some [("node1", 2)]) "nodefile_1.txt" "/usr/bin/mpirun").post_init
        []).1).apply ["/bin/app"]
        (((MPI_node.mk 0 (some [("node1", 2)]) "nodefile_1.txt" "/usr/bin/mpirun").post_init
        []).2)
        (fun _ => Except.error "Command failed with return code 1")).2.contains
        "nodefile_1.txt" = true
    ∧ ((((MPI_node.mk 0 (some [("node1", 2)]) "nodefile_1.txt" "/usr/bin/mpirun").post_init
        []).1).apply ["/bin/app"] ["nodefile_1.txt"]
        (fun _ => Except.ok ())).2.contains "nodefile_1.txt" = false := by
  decide

/-- C2 counterexample: for a local batch of two tasks whose first task's process
exits 1, `run_local` does not return a record list with one entry per task — the
`RuntimeError` (carrying only the return code, not the captured output) propagates
out of the batch, so the claim as stated is false. -/
theorem run_local_aborts_batch_on_single_failure :
    (Rosetta.mk (RosettaBinary.mk "/bin/app" "static") 4 [] [] false none "default" ""
        false).run_local
      (fun c => if c == ["/bin/app", "-in:file:s", "a.pdb"] then ProcResult.mk 1 "boom"
        else ProcResult.mk 0 "")
      ["/bin/app"]
      (some [[("-in:file:s", Sum.inl "a.pdb")], [("-in:file:s", Sum.inl "b.pdb")]]) none
      = Except.error "Command failed with return code 1"
    ∧ ∀ records : List Unit,
      (Rosetta.mk (RosettaBinary.mk "/bin/app" "static") 4 [] [] false none "default" ""
          false).run_local
        (fun c => if c == ["/bin/app", "-in:file:s", "a.pdb"] then ProcResult.mk 1 "boom"
          else ProcResult.mk 0 "")
        ["/bin/app"]
        (some [[("-in:file:s", Sum.inl "a.pdb")], [("-in:file:s", Sum.inl "b.pdb")]]) none
        ≠ Except.ok records := by
  have h1 :
      (Rosetta.mk (RosettaBinary.mk "/bin/app" "static") 4 [] [] false none "default" ""
          false).run_local
        (fun c => if c == ["/bin/app", "-in:file:s", "a.pdb"] then ProcResult.mk 1 "boom"
          else ProcResult.mk 0 "")
        ["/bin/app"]
        (some [[("-in:file:s", Sum.inl "a.pdb")], [("-in:file:s", Sum.inl "b.pdb")]]) none
        = Except.error "Command failed with return code 1" := by rfl
  refine ⟨h1, fun records h => ?_⟩
  rw [h1] at h
  exact Except.noConfusion h

/-- Helper for C2: under the default `joblib.Parallel` model, a batch in which
every task succeeds returns one result per task, in order. -/
theorem joblibParallel_ok_of_all_ok (f : List String → Except String Unit)
    (jobs : List (List String)) (h : ∀ j ∈ jobs, f j = Except.ok ()) :
    joblibParallel f jobs = Except.ok (jobs.map (fun _ => ())) := by
  induction jobs with
  | nil => rfl
  | cons j js ih =>
    simp only [joblibParallel]
    rw [h j (by simp), ih (fun x hx => h x (by simp [hx]))]
    rfl

/-- Helper for C2: under the default `joblib.Parallel` model, a batch containing a
failing task raises instead of returning a result list. -/
theorem joblibParallel_error_of_failure (f : List String → Except String Unit)
    (jobs : List (List String)) (h : ∃ j ∈ jobs, (f j).isOk = false) :
    ∃ e, joblibParallel f jobs = Except.error e := by
  induction jobs with
  | nil => simp at h
  | cons j js ih =>
    by_cases hj : (f j).isOk = false
    · cases hfj : f j with
      | error e => exact ⟨e, by simp [joblibParallel, hfj]⟩
      | ok u => rw [hfj] at hj; simp [Except.toBool] at hj
    · obtain ⟨j0, hj0, hfail⟩ := h
      rcases List.mem_cons.mp hj0 with rfl | hj0
      · exact absurd hfail hj
      · obtain ⟨e, he⟩ := ih ⟨j0, hj0, hfail⟩
        cases hfj : f j with
        | error e2 => exact ⟨e2, by simp [joblibParallel, hfj]⟩
        | ok u => exact ⟨e, by simp [joblibParallel, hfj, he]⟩

/-- C2 (amended): in a local-mode batch, when every task's external process exits
zero `run_local` returns one (None) record per task; when any task's process exits
non-zero, an exception propagates out of the batch call — failures are not
collected into the returned record list. -/
theorem run_local_records_iff_all_tasks_succeed (r : Rosetta)
    (proc : List String → ProcResult) (cmd : List String)
    (inputs : Option (List InputDict)) (nstruct : Option Int) :
    ((∀ j ∈ r.cmd_jobs cmd inputs nstruct, (proc j).retcode = 0) →
      r.run_local proc cmd inputs nstruct
        = Except.ok ((r.cmd_jobs cmd inputs nstruct).map (fun _ => ())))
    ∧ ((∃ j ∈ r.cmd_jobs cmd inputs nstruct, (proc j).retcode ≠ 0) →
      ∃ e, r.run_local proc cmd inputs nstruct = Except.error e) := by
  constructor
  · intro h
    apply joblibParallel_ok_of_all_ok
    intro j hj
    simp [Rosetta.execute, h j hj]
  · rintro ⟨j, hj, hne⟩
    apply joblibParallel_error_of_failure
    have hex : Rosetta.execute proc j
        = Except.error ("Command failed with return code " ++ toString (proc j).retcode) := by
      simp [Rosetta.execute, hne]
    exact ⟨j, hj, by rw [hex]; rfl⟩

/-- Witness for C2 (amended), at a concrete all-success batch of one task. -/
theorem run_local_records_iff_all_tasks_succeed_witness :
    (Rosetta.mk (RosettaBinary.mk "/bin/app" "static") 4 [] [] false none "default" ""
        false).run_local (fun _ => ProcResult.mk 0 "") ["/bin/app"] none none
      = Except.ok [()] :=
  (run_local_records_iff_all_tasks_succeed
    (Rosetta.mk (RosettaBinary.mk "/bin/app" "static") 4 [] [] false none "default" ""
      false) (fun _ => ProcResult.mk 0 "") ["/bin/app"] none none).1 (by decide)

/-- C3: the claim says applying the group `{"site": "A"}` replaces every
`%%site%%` in the template. The code instead raises `ValueError`: it iterates
`for k, v in self.asdict:` over the dict itself, which yields the KEY strings,
and tuple-unpacking the four-character key `"site"` into `(k, v)` fails. -/
theorem apply_to_xml_content_raises_on_multichar_key :
    (RosettaScriptsVariableGroup.mk
        [RosettaScriptsVariable.mk "site" "A"]).apply_to_xml_content
      "In %%site%% text" = Except.error "ValueError" := by
  rfl

/-- C4: command composition is deterministic — for one `Rosetta` job
specification and two filesystem oracles that agree on the existence of every
listed flag file (the only filesystem facts `compose` reads), `compose` from the
same directory state returns identical token sequences (and identical states). -/
theorem compose_deterministic (r : Rosetta) (f1 f2 : String → Bool)
    (dirs : List String) (hf : ∀ s ∈ r.flags, f1 s = f2 s) :
    r.compose f1 dirs = r.compose f2 dirs := by
  unfold Rosetta.compose composeBase
  rw [List.filter_congr hf]

/-- Witness for C4 at a concrete job specification and two distinct oracles that
agree on the single flag file. -/
theorem compose_deterministic_witness :
    (Rosetta.mk (RosettaBinary.mk "/bin/app" "static") 4 ["f.flag"]
        [Sum.inl "-x", Sum.inl "1"] false none "default" "" false).compose
        (fun s => s == "f.flag") []
      = (Rosetta.mk (RosettaBinary.mk "/bin/app" "static") 4 ["f.flag"]
        [Sum.inl "-x", Sum.inl "1"] false none "default" "" false).compose
        (fun _ => true) [] :=
  compose_deterministic (Rosetta.mk (RosettaBinary.mk "/bin/app" "static") 4 ["f.flag"]
      [Sum.inl "-x", Sum.inl "1"] false none "default" "" false)
    (fun s => s == "f.flag") (fun _ => true) [] (by decide)

/-- C6: for every cluster-mode allocation (a `node_matrix` is present), the total
process count after `__post_init__` equals the sum of the per-host slot counts,
whatever explicit `nproc` the caller supplied — the input count is overridden, not
merged. -/
theorem mpi_node_nproc_eq_sum_slots (nproc : Int) (node_file mpi_excutable : String)
    (m : List (String × Int)) (fs : List String) :
    (((MPI_node.mk nproc (some m) node_file mpi_excutable).post_init fs).1).nproc
      = (m.map (fun p => p.2)).sum := rfl

/-- C7: expanding a variable group produces exactly `2 × |pairs|` tokens, in input
order — for each pair the fixed prefix token then `key=value` — and constructing a
group from an empty collection of pairs fails with `ValueError`. -/
theorem variable_group_expand_tokens (vg : RosettaScriptsVariableGroup) :
    vg.aslonglist.length = 2 * vg.variables.length
    ∧ vg.aslonglist
        = vg.variables.flatMap (fun v => ["-parser:script_vars", v.k ++ "=" ++ v.v])
    ∧ RosettaScriptsVariableGroup.from_dict [] = Except.error "ValueError" := by
  refine ⟨?_, rfl, rfl⟩
  obtain ⟨l⟩ := vg
  induction l with
  | nil => rfl
  | cons x xs ih =>
    simp [RosettaScriptsVariableGroup.aslonglist, List.flatMap_cons,
      RosettaScriptsVariable.aslist] at ih ⊢
    omega

/-- C8: whenever `Rosetta.__post_init__` completes without error, the resulting
`use_mpi` flag equals whether an MPI node allocation was supplied — regardless of
the `use_mpi` value the caller passed — and a supplied allocation implies the
binary declares MPI mode. -/
theorem rosetta_use_mpi_iff_mpi_node_given (bin : RosettaBinary) (nproc : Int)
    (flags : Option (List String)) (opts : Option (List RosettaOpt)) (use_mpi : Bool)
    (mpi_node : Option MPI_node) (job_id output_dir : String) (sat : Bool)
    (r : Rosetta) (w : List String)
    (h : Rosetta.post_init bin nproc flags opts use_mpi mpi_node job_id output_dir sat
      = Except.ok (r, w)) :
    r.use_mpi = mpi_node.isSome ∧ (mpi_node.isSome = true → bin.mode = "mpi") := by
  cases mpi_node with
  | none =>
    simp only [Rosetta.post_init, Except.ok.injEq, Prod.mk.injEq] at h
    obtain ⟨hr, hw⟩ := h
    rw [← hr]
    simp
  | some node =>
    by_cases hm : bin.mode = "mpi"
    · simp only [Rosetta.post_init, hm, bne_self_eq_false, Bool.false_eq_true,
        if_false, Except.ok.injEq, Prod.mk.injEq] at h
      obtain ⟨hr, hw⟩ := h
      rw [← hr]
      simp [hm]
    · exfalso
      simp [Rosetta.post_init, hm] at h

/-- Witness for C8: a caller passing `use_mpi := True` with no MPI node still gets
`use_mpi = False` after construction. -/
theorem rosetta_use_mpi_iff_mpi_node_given_witness :
    (Rosetta.mk (RosettaBinary.mk "/bin/app" "static") 4 [] [] false none "default" ""
        false).use_mpi = (none : Option MPI_node).isSome
    ∧ ((none : Option MPI_node).isSome = true
        → (RosettaBinary.mk "/bin/app" "static").mode = "mpi") :=
  rosetta_use_mpi_iff_mpi_node_given (RosettaBinary.mk "/bin/app" "static") 4 none none
    true none "default" "" false _ _ rfl

/-- C9: `compose` never mutates the job specification and never raises — it
returns the fresh `composeBase` token list (plus, when an output directory is
configured, the two derived output-path options), the `Rosetta` value unchanged,
and a directory state extended by exactly the two output directories (none when no
output directory is configured). -/
theorem compose_frame (r : Rosetta) (isfile : String → Bool) (dirs : List String) :
    r.compose isfile dirs = Except.ok
      (composeBase r isfile ++
        (if r.output_dir == "" then []
         else ["-out:path:pdb", r.output_dir ++ "/" ++ r.job_id ++ "/" ++
            (if r.save_all_together then "all" else "pdb"),
           "-out:path:score", r.output_dir ++ "/" ++ r.job_id ++ "/" ++
            (if r.save_all_together then "all" else "scorefile")]),
       r,
       if r.output_dir == "" then dirs
       else makedirs (makedirs dirs (r.output_dir ++ "/" ++ r.job_id ++ "/" ++
            (if r.save_all_together then "all" else "pdb")))
         (r.output_dir ++ "/" ++ r.job_id ++ "/" ++
            (if r.save_all_together then "all" else "scorefile"))) := by
  unfold Rosetta.compose Rosetta.output_pdb_dir Rosetta.output_scorefile_dir
  by_cases h : r.output_dir == ""
  · simp [h]
  · simp [h]

/-- C10: whenever the result aggregator's construction succeeds, its configured
default score term is among the parsed table's columns (so construction fails
whenever it is absent), while the fall-back-to-default behaviour belongs to the
per-call field argument of `top`, which falls back to the configured term when the
requested field is missing. -/
theorem analyser_requires_score_term (isfile isdir : String → Bool)
    (listdir : String → List String) (read_fwf : String → DataFrame)
    (score_file score_term : String) (df : DataFrame)
    (h : RosettaEnergyUnitAnalyser.post_init isfile isdir listdir read_fwf score_file
        score_term = Except.ok df) :
    df.columns.contains score_term = true
    ∧ ∀ t : String, df.columns.contains t = false →
        RosettaEnergyUnitAnalyser.top_score_term df score_term (some t) = score_term := by
  constructor
  · unfold RosettaEnergyUnitAnalyser.post_init at h
    split at h
    · exact Except.noConfusion h
    · split at h
      · next hc =>
        injection h with h2
        exact h2 ▸ hc
      · exact Except.noConfusion h
  · intro t ht
    unfold RosettaEnergyUnitAnalyser.top_score_term
    dsimp only
    rw [ht]
    simp

/-- Witness for C10 at a concrete single score file whose parsed columns contain
the configured default term. -/
theorem analyser_requires_score_term_witness :
    (DataFrame.mk ["total_score", "description"] []).columns.contains "total_score"
      = true :=
  (analyser_requires_score_term (fun _ => true) (fun _ => false) (fun _ => [])
    (fun _ => DataFrame.mk ["total_score", "description"] []) "score.sc" "total_score"
    (DataFrame.mk ["total_score", "description"] []) rfl).1
